import Mathlib

/-!
Verification of the authenticated API proxy and session/token management
layer of the trademark-search application.

The definitions below are a shallow embedding of the TypeScript sources:

* `src/lib/inpi-client.ts` — `readCache`, `writeCache`, `performLogin`,
  `getAccessToken`, `clearAuthCache`;
* `src/app/api/trademarks/search/route.ts` — the route `GET` handler with
  its 401/403 clear-and-retry policy;
* `src/app/api/trademarks/notice/[id]/route.ts` and
  `src/app/api/trademark-image/[id]/route.ts` — the notice and image proxy
  `GET` handlers;
* a small-step interleaving machine for the single-flight promise logic of
  `getAccessToken` / `performLogin`.

Network traffic, the file system and `Date.now()` are modelled as explicit
inputs; JavaScript exceptions are modelled with `Except`; machine state is
passed explicitly.
-/

/-- A JSON-like value as it appears in response bodies and in the durable
auth-cache file. Objects are collapsed to the opaque constructor `jobj`
except where the code inspects individual fields. -/
inductive JVal where
  | jstr (s : String)
  | jnum (n : Int)
  | jbool (b : Bool)
  | jnull
  | jobj
deriving DecidableEq, Repr

/-- JavaScript truthiness of a JSON-like value: the empty string, zero,
`false` and `null` are falsy, every object is truthy. -/
def JVal.truthy : JVal → Bool
  | .jstr s => !(s == "")
  | .jnum n => !(n == 0)
  | .jbool b => b
  | .jnull => false
  | .jobj => true

/-- A cookie in the tough-cookie jar, reduced to the key/value pair the
client code reads. -/
structure Cookie where
  key : String
  value : String
deriving DecidableEq, Repr

/-- The structured `details` payload attached to an `APIError`. The code
builds several shapes of detail objects; we keep the parts the routes and
the claims inspect: the `stage` field, the `reason` field of the
configuration error, raw upstream payload data, and the
`originalSearchError` / `retryAttemptError` wrapper built by the search
retry path. -/
inductive APIDetails where
  | nofield
  | stage (s : String)
  | reason (s : String)
  | payload (s : String)
  | retryWrap (originalMessage : String) (retryData : APIDetails)
deriving DecidableEq, Repr

/-- Projection of the `stage` field out of a details payload. -/
def APIDetails.stageOf : APIDetails → Option String
  | .stage s => some s
  | _ => none

/-- The `APIError` class of `inpi-client.ts` (also redeclared verbatim in
the search route): message, HTTP status code, structured details. -/
structure APIError where
  message : String
  statusCode : Int
  details : APIDetails
deriving DecidableEq, Repr

/-- Outcome of one HTTP round trip as observed through axios: either a
response body, or an axios error that may carry a response status and the
response data rendered as a string. `msg` is the message the catch blocks
read off the error (the `error_description || error || error.message`
chain collapsed to its result). -/
inductive NetOutcome (α : Type) where
  | ok (body : α)
  | axiosErr (status : Option Int) (msg : String) (data : String)
deriving DecidableEq, Repr

/-- JavaScript `x || d` on an optional status code: `undefined` and `0`
fall back to the default. -/
def jsOrInt (x : Option Int) (d : Int) : Int :=
  match x with
  | some s => if s = 0 then d else s
  | none => d

/-- Body of the login POST response as consumed by `performLogin`: either a
falsy value or an object carrying optional `access_token` and `expires_in`
fields. -/
inductive LoginBody where
  | falsy
  | fields (accessTokenField : Option JVal) (expiresInField : Option JVal)
deriving DecidableEq, Repr

/-- Projection of the `expires_in` field of a login response body. -/
def LoginBody.expiresIn? : LoginBody → Option JVal
  | .falsy => none
  | .fields _ e => e

/-- The seconds-to-expiry used by `performLogin`:
`typeof responseData.expires_in === "number" ? responseData.expires_in : 3600`. -/
def expiresInOf (b : LoginBody) : Int :=
  match b.expiresIn? with
  | some (.jnum n) => n
  | _ => 3600

/-- The `access_token` validation of `performLogin`:
`!responseData || typeof responseData.access_token !== 'string' || !responseData.access_token`
rejects a falsy body, a missing or non-string field, and the empty string;
otherwise the token string is extracted. -/
def validAccessTokenField : LoginBody → Option String
  | .falsy => none
  | .fields a _ =>
    match a with
    | some (.jstr s) => if s = "" then none else some s
    | _ => none

/-- Extraction of the anti-forgery cookie from the jar:
`cookiesFromJar.find(c => c.key === "XSRF-TOKEN")` followed by the
`!xsrfCookie?.value` rejection of a missing cookie or an empty value. -/
def xsrfFromJar (cs : List Cookie) : Option String :=
  match cs.find? (fun c => c.key == "XSRF-TOKEN") with
  | some c => if c.value = "" then none else some c.value
  | none => none

/-- The environment one run of `performLogin` interacts with: whether the
two credential environment variables are set (to truthy strings), the
outcome of the priming GET on the cookie-setup URL, the cookies the jar
holds for that URL after the GET, the outcome of the login POST, and the
value of `Date.now()` when the new expiry is computed. -/
structure LoginEnv where
  usernameSet : Bool
  passwordSet : Bool
  primeOutcome : NetOutcome Unit
  jarCookies : List Cookie
  postOutcome : NetOutcome LoginBody
  now : Int
deriving DecidableEq, Repr

/-- The durable auth-cache file at `CACHE_FILE_PATH`, as `readCache` can
encounter it: absent, unreadable, holding text `JSON.parse` rejects,
parsing to a falsy value, or parsing to an object with optional
`accessToken` / `tokenExpiry` / `cookieJar` fields. -/
inductive CacheFile where
  | missing
  | unreadable
  | unparsable
  | parsedFalsy
  | parsedObj (accessToken? : Option JVal) (tokenExpiry? : Option JVal) (cookieJar? : Option JVal)
deriving DecidableEq, Repr

/-- The validated in-memory form of the cache file (`AuthCache` in the
source). -/
structure AuthCache where
  accessToken : String
  tokenExpiry : Int
  cookieJar : JVal
deriving DecidableEq, Repr

/-- Shallow embedding of `readCache`: any read/parse failure is caught and
becomes `null`; a parsed value survives only if `accessToken` is a string,
`tokenExpiry` is a number and `cookieJar` is truthy. -/
def readCache : CacheFile → Option AuthCache
  | .missing => none
  | .unreadable => none
  | .unparsable => none
  | .parsedFalsy => none
  | .parsedObj a t c =>
    match a, t, c with
    | some (.jstr s), some (.jnum n), some cj =>
      if cj.truthy then some ⟨s, n, cj⟩ else none
    | _, _, _ => none

/-- Network events one call performed: number of priming GETs and of login
POSTs issued. -/
structure NetEvents where
  primeGets : Nat
  loginPosts : Nat
deriving DecidableEq, Repr

/-- The `APIError` thrown when `INPI_USERNAME` or `INPI_PASSWORD` is not
set. -/
def credsMissingError : APIError :=
  ⟨"Authentication configuration error: Missing credentials.", 500,
    .reason "INPI_USERNAME or INPI_PASSWORD environment variables are not set."⟩

/-- The `APIError` thrown when no usable `XSRF-TOKEN` cookie is in the jar
after the priming GET. -/
def xsrfError : APIError :=
  ⟨"Failed to obtain XSRF-TOKEN cookie.", 500, .stage "login-xsrf-cookie-extraction"⟩

/-- The `APIError` thrown when the login response carries no valid
`access_token` string. -/
def tokenExtractionError : APIError :=
  ⟨"No valid access_token string in response from /auth/login", 500, .stage "token-extraction"⟩

/-- The `APIError` the catch block of `performLogin` builds from an axios
error: message prefixed with `Authentication failed (shared): `, status
`error.response?.status || 500`, details the response data. -/
def sharedAuthAxiosError (status : Option Int) (msg : String) (data : String) : APIError :=
  ⟨"Authentication failed (shared): " ++ msg, jsOrInt status 500, .payload data⟩

deriving instance DecidableEq for Except

/-- Result of one run of `performLogin`: the value or error its promise
settles with, the state of the durable cache file afterwards, and the
network events it performed. -/
structure LoginResult where
  outcome : Except APIError String
  cacheAfter : CacheFile
  events : NetEvents
deriving DecidableEq, Repr

/-- Shallow embedding of `performLogin`. The body follows the source
order: credentials check, priming GET, XSRF cookie extraction, login POST,
`access_token` extraction, expiry computation and `writeCache`; every
failure path runs `clearAuthCache()` (the cache file is removed) before
the error propagates. The `finally` clearing of the in-flight promise is
modelled in the interleaving machine below. -/
def performLogin (env : LoginEnv) : LoginResult :=
  if !(env.usernameSet && env.passwordSet) then
    ⟨.error credsMissingError, .missing, ⟨0, 0⟩⟩
  else
    match env.primeOutcome with
    | .axiosErr st msg data =>
      ⟨.error (sharedAuthAxiosError st msg data), .missing, ⟨1, 0⟩⟩
    | .ok _ =>
      match xsrfFromJar env.jarCookies with
      | none => ⟨.error xsrfError, .missing, ⟨1, 0⟩⟩
      | some _ =>
        match env.postOutcome with
        | .axiosErr st msg data =>
          ⟨.error (sharedAuthAxiosError st msg data), .missing, ⟨1, 1⟩⟩
        | .ok body =>
          match validAccessTokenField body with
          | none => ⟨.error tokenExtractionError, .missing, ⟨1, 1⟩⟩
          | some tok =>
            ⟨.ok tok,
             .parsedObj (some (.jstr tok))
               (some (.jnum (env.now + expiresInOf body * 1000)))
               (some .jobj),
             ⟨1, 1⟩⟩

/-- Validity test applied to a cached record:
`Date.now() < cachedState.tokenExpiry - 5 * 60 * 1000`. -/
def tokenStillValid (now : Int) (c : AuthCache) : Bool :=
  now < c.tokenExpiry - 5 * 60 * 1000

/-- Whether the cache file currently yields a valid token record. -/
def hasValidToken (file : CacheFile) (now : Int) : Bool :=
  match readCache file with
  | some c => tokenStillValid now c
  | none => false

/-- What one call to `getAccessToken` did and resolved to. -/
inductive AcquireOutcome where
  | cachedToken (t : String)
  | awaitedInFlight
  | loginStarted (r : Except APIError String)
deriving DecidableEq, Repr

/-- Result of one call to `getAccessToken`: its outcome, the cache file
afterwards, and the network events the call itself triggered. -/
structure AcquireResult where
  outcome : AcquireOutcome
  cacheAfter : CacheFile
  events : NetEvents
deriving DecidableEq, Repr

/-- Shallow embedding of the exported `getAccessToken` of
`inpi-client.ts`: read the cache file; if it holds a still-valid record,
return the cached token (no network traffic); otherwise, if an in-flight
login promise exists, await it; otherwise start `performLogin` and record
its promise as in flight. -/
def getAccessToken (file : CacheFile) (inFlightPresent : Bool) (env : LoginEnv) : AcquireResult :=
  match readCache file with
  | some c =>
    if tokenStillValid env.now c then
      ⟨.cachedToken c.accessToken, file, ⟨0, 0⟩⟩
    else if inFlightPresent then
      ⟨.awaitedInFlight, file, ⟨0, 0⟩⟩
    else
      let r := performLogin env
      ⟨.loginStarted r.outcome, r.cacheAfter, r.events⟩
  | none =>
    if inFlightPresent then
      ⟨.awaitedInFlight, file, ⟨0, 0⟩⟩
    else
      let r := performLogin env
      ⟨.loginStarted r.outcome, r.cacheAfter, r.events⟩

example :
    (getAccessToken (.parsedObj (some (.jstr "tok")) (some (.jnum 1000000)) (some .jobj))
      false ⟨true, true, .ok (), [], .ok .falsy, 0⟩).outcome = .cachedToken "tok" := by
  decide

example :
    (getAccessToken .missing false ⟨false, true, .ok (), [], .ok .falsy, 0⟩).outcome
      = .loginStarted (.error credsMissingError) := by
  decide

/-- Outcome of one `performSearch` call (or of the single upstream GET of
the notice/image routes): data, or an axios rejection carrying the
optional response status, the message the catch blocks read, and the
response data rendered as a string. Inside `performSearch` the
preliminary metadata GET catches its own failures, so only the search
POST can make it reject. -/
inductive UpstreamOutcome where
  | ok (data : String)
  | axiosErr (status : Option Int) (msg : String) (data : String)
deriving DecidableEq, Repr

/-- Oracle for one run of the search route handler: the outcomes of the
successive `getAccessToken` and `performSearch` calls in the order the
handler would make them; later slots are unused when control never
reaches them. -/
structure SearchEnv where
  auth1 : Except APIError String
  search1 : UpstreamOutcome
  auth2 : Except APIError String
  search2 : UpstreamOutcome
deriving DecidableEq, Repr

/-- Body of the JSON response a route handler produces. -/
inductive RouteBody where
  | data (d : String)
  | errorBody (message : String) (code : String) (details : APIDetails)
deriving DecidableEq, Repr

/-- An HTTP response of the search route handler. -/
structure RouteResponse where
  status : Int
  body : RouteBody
deriving DecidableEq, Repr

/-- The `code` field of the search route error envelope. -/
def searchCodeOf (statusCode : Int) : String :=
  if statusCode = 401 then "UNAUTHORIZED"
  else if statusCode = 403 then "FORBIDDEN"
  else "INTERNAL_ERROR"

/-- The outer catch of the search route: an `APIError` becomes a JSON
error envelope with its status code. -/
def searchErrorResponse (e : APIError) : RouteResponse :=
  ⟨e.statusCode, .errorBody e.message (searchCodeOf e.statusCode) e.details⟩

/-- Observable summary of one run of the search route handler: the
response, how many times `getAccessToken` and `performSearch` ran, and
whether the module-level token store (`accessToken` / `xsrfTokenValue` /
`tokenExpiry`) was nulled by the 401/403 branch. -/
structure SearchRun where
  response : RouteResponse
  authCalls : Nat
  searchCalls : Nat
  clearedTokenStore : Bool
deriving DecidableEq, Repr

/-- Shallow embedding of the search route `GET` handler from the point
where the query has been validated: acquire a token, perform the search;
on an axios error with status 401 or 403, null the token store, force one
re-authentication and retry the search exactly once; if the retry path
fails, wrap the original message and the retry details into one
`APIError`; any other upstream error is surfaced directly without retry. -/
def searchGET (env : SearchEnv) : SearchRun :=
  match env.auth1 with
  | .error e => ⟨searchErrorResponse e, 1, 0, false⟩
  | .ok _ =>
    match env.search1 with
    | .ok d => ⟨⟨200, .data d⟩, 1, 1, false⟩
    | .axiosErr st msg data =>
      if st = some 401 ∨ st = some 403 then
        match env.auth2 with
        | .error e2 =>
          ⟨searchErrorResponse
            ⟨"Failed to retry search: " ++ e2.message, e2.statusCode,
              .retryWrap msg e2.details⟩, 2, 1, true⟩
        | .ok _ =>
          match env.search2 with
          | .ok d2 => ⟨⟨200, .data d2⟩, 2, 2, true⟩
          | .axiosErr st2 msg2 data2 =>
            ⟨searchErrorResponse
              ⟨"Failed to retry search: " ++ msg2, jsOrInt st2 500,
                .retryWrap msg
                  (match st2 with | some _ => .payload data2 | none => .nofield)⟩,
              2, 2, true⟩
      else
        ⟨searchErrorResponse
          ⟨"Search failed: " ++ msg, jsOrInt st 500, .payload data⟩, 1, 1, false⟩

/-- Oracle for one run of a notice / image proxy handler: the outcome of
its single `getAccessToken` call and of its single upstream GET. -/
structure ProxyEnv where
  auth : Except APIError String
  upstream : UpstreamOutcome
deriving DecidableEq, Repr

/-- Observable summary of one run of a notice / image proxy handler. -/
structure ProxyRun where
  status : Int
  message : Option String
  authCalls : Nat
  upstreamCalls : Nat
deriving DecidableEq, Repr

/-- Shallow embedding of the notice route `GET` handler (id present):
acquire a token, perform the single upstream GET, return the parsed
document. An `APIError` from `getAccessToken` and an axios error from the
upstream call are both translated directly into an error response with
the upstream status: this handler contains no token-store clear, no
re-authentication and no retry. XML parsing is abstracted to a
passthrough of the upstream data. -/
def noticeGET (env : ProxyEnv) : ProxyRun :=
  match env.auth with
  | .error e => ⟨e.statusCode, some e.message, 1, 0⟩
  | .ok _ =>
    match env.upstream with
    | .ok _ => ⟨200, none, 1, 1⟩
    | .axiosErr st msg _ =>
      ⟨jsOrInt st 500, some ("Failed to fetch notice: " ++ msg), 1, 1⟩

/-- Shallow embedding of the image proxy route `GET` handler (id
present): acquire a token, perform the single upstream GET, return the
image bytes. Like the notice route, it surfaces an upstream axios error
directly with the upstream status and performs no clear, no
re-authentication and no retry. -/
def imageGET (env : ProxyEnv) : ProxyRun :=
  match env.auth with
  | .error e => ⟨e.statusCode, some e.message, 1, 0⟩
  | .ok _ =>
    match env.upstream with
    | .ok _ => ⟨200, none, 1, 1⟩
    | .axiosErr st msg _ =>
      ⟨jsOrInt st 500, some ("Failed to fetch image: " ++ msg), 1, 1⟩

example :
    (searchGET ⟨.ok "t", .axiosErr (some 401) "unauthorized" "d", .ok "t2", .ok "yes"⟩).searchCalls
      = 2 := by decide

example :
    (noticeGET ⟨.ok "t", .axiosErr (some 401) "unauthorized" "d"⟩).upstreamCalls = 1 := by decide

/-- A token record as the single-flight machine sees the durable cache:
the validated view `readCache` would produce. -/
structure TokRecord where
  token : String
  expiry : Int
deriving DecidableEq, Repr

/-- Phase of one authentication attempt (one `performLogin` run):
`priming` — the priming GET has been issued and is being awaited;
`posting` — the login POST has been issued and is being awaited;
`settling r` — the run has decided its result `r` but is still finishing
(`clearAuthCache` / `writeCache` and the `finally` block), its promise
has not yet settled; `settled r` — the promise has settled with `r`. -/
inductive Phase where
  | priming
  | posting
  | settling (r : Except APIError String)
  | settled (r : Except APIError String)
deriving DecidableEq, Repr

/-- One authentication attempt together with the network calls it has
issued so far. -/
structure Attempt where
  phase : Phase
  primeGets : Nat
  loginPosts : Nat
deriving DecidableEq, Repr

/-- Whether an attempt's promise has settled. -/
def Attempt.settledQ (att : Attempt) : Bool :=
  match att.phase with
  | .settled _ => true
  | _ => false

/-- State of one logical caller of `getAccessToken`:
`start` — the call has begun and is awaiting `readCache`;
`ready` — `readCache` has resolved, the synchronous check section runs next;
`joined a` — the caller is awaiting the promise of attempt `a`;
`doneCached t` — the call returned the still-valid cached token `t`;
`doneJoined a r` — the call resolved with the result `r` of attempt `a`. -/
inductive TState where
  | start
  | ready
  | joined (a : Nat)
  | doneCached (t : String)
  | doneJoined (a : Nat) (r : Except APIError String)
deriving DecidableEq, Repr

/-- Global state of the single-flight machine: the durable cache (the
validated record `readCache` yields, `none` when it yields `null`), the
shared `inpiTokenPromise` (identified by the attempt it belongs to), the
attempts spawned so far (indexed by creation order), and the state of
every logical caller. -/
structure Sys where
  cache : Option TokRecord
  inFlight : Option Nat
  attempts : Nat → Option Attempt
  nextA : Nat
  threads : Nat → TState

/-- The `Date.now() < tokenExpiry - 5 * 60 * 1000` validity test on the
current cache view. -/
def cacheValid (now : Int) : Option TokRecord → Bool
  | some c => decide (now < c.expiry - 5 * 60 * 1000)
  | none => false

/-- Interleaving semantics of concurrent `getAccessToken` calls in one
process. Each constructor is one atomic section of the event loop:
execution between two suspension points. The crucial atomicity lives in
`spawn` / `spawnNoCreds`: the in-flight check and the registration of the
new `performLogin` promise are in the same synchronous section of
`getAccessToken`, so no other caller can run between them. Where the code
can fail with several different error values (axios errors of either
network call, the XSRF-cookie error, the token-extraction error), the
`fail` step leaves the error value nondeterministic; this only enlarges
the behaviour set the safety theorem quantifies over. -/
inductive Step (creds : Bool) (now : Int) : Sys → Sys → Prop where
  | resume (s : Sys) (i : Nat) (h : s.threads i = .start) :
      Step creds now s
        { s with threads := fun j => if j = i then .ready else s.threads j }
  | hitCache (s : Sys) (i : Nat) (c : TokRecord) (h : s.threads i = .ready)
      (hc : s.cache = some c) (hv : cacheValid now s.cache = true) :
      Step creds now s
        { s with threads := fun j => if j = i then .doneCached c.token else s.threads j }
  | joinInFlight (s : Sys) (i a : Nat) (h : s.threads i = .ready)
      (hv : cacheValid now s.cache = false) (hf : s.inFlight = some a) :
      Step creds now s
        { s with threads := fun j => if j = i then .joined a else s.threads j }
  | spawn (s : Sys) (i : Nat) (h : s.threads i = .ready)
      (hv : cacheValid now s.cache = false) (hf : s.inFlight = none)
      (hcr : creds = true) :
      Step creds now s
        { s with
          attempts := fun b => if b = s.nextA then some ⟨.priming, 1, 0⟩ else s.attempts b,
          inFlight := some s.nextA,
          nextA := s.nextA + 1,
          threads := fun j => if j = i then .joined s.nextA else s.threads j }
  | spawnNoCreds (s : Sys) (i : Nat) (h : s.threads i = .ready)
      (hv : cacheValid now s.cache = false) (hf : s.inFlight = none)
      (hcr : creds = false) :
      Step creds now s
        { s with
          cache := none,
          attempts := fun b =>
            if b = s.nextA then some ⟨.settling (.error credsMissingError), 0, 0⟩
            else s.attempts b,
          inFlight := some s.nextA,
          nextA := s.nextA + 1,
          threads := fun j => if j = i then .joined s.nextA else s.threads j }
  | primeOk (s : Sys) (a : Nat) (att : Attempt) (h : s.attempts a = some att)
      (hp : att.phase = .priming) :
      Step creds now s
        { s with
          attempts := fun b =>
            if b = a then some ⟨.posting, att.primeGets, att.loginPosts + 1⟩
            else s.attempts b }
  | fail (s : Sys) (a : Nat) (att : Attempt) (e : APIError)
      (h : s.attempts a = some att)
      (hp : att.phase = .priming ∨ att.phase = .posting) :
      Step creds now s
        { s with
          cache := none,
          attempts := fun b =>
            if b = a then some ⟨.settling (.error e), att.primeGets, att.loginPosts⟩
            else s.attempts b }
  | succeed (s : Sys) (a : Nat) (att : Attempt) (t : String) (expSec : Int)
      (h : s.attempts a = some att) (hp : att.phase = .posting) :
      Step creds now s
        { s with
          cache := some ⟨t, now + expSec * 1000⟩,
          attempts := fun b =>
            if b = a then some ⟨.settling (.ok t), att.primeGets, att.loginPosts⟩
            else s.attempts b }
  | settle (s : Sys) (a : Nat) (att : Attempt) (r : Except APIError String)
      (h : s.attempts a = some att) (hp : att.phase = .settling r) :
      Step creds now s
        { s with
          inFlight := none,
          attempts := fun b =>
            if b = a then some ⟨.settled r, att.primeGets, att.loginPosts⟩
            else s.attempts b }
  | finishJoin (s : Sys) (i a : Nat) (att : Attempt) (r : Except APIError String)
      (h : s.threads i = .joined a) (ha : s.attempts a = some att)
      (hph : att.phase = .settled r) :
      Step creds now s
        { s with threads := fun j => if j = i then .doneJoined a r else s.threads j }

/-- The initial state of the machine: cache content `c₀`, no in-flight
promise, no attempts, every logical caller about to run
`getAccessToken`. -/
def initSys (c₀ : Option TokRecord) : Sys :=
  { cache := c₀, inFlight := none, attempts := fun _ => none, nextA := 0,
    threads := fun _ => .start }

/-- States reachable from the initial state by interleaved execution. -/
def Reachable (creds : Bool) (now : Int) (c₀ : Option TokRecord) (s : Sys) : Prop :=
  Relation.ReflTransGen (Step creds now) (initSys c₀) s

/-- The inductive invariant of the single-flight machine. -/
structure SysInv (s : Sys) : Prop where
  dom : ∀ a, s.nextA ≤ a → s.attempts a = none
  flight_live : ∀ a, s.inFlight = some a →
    ∃ att, s.attempts a = some att ∧ att.settledQ = false
  unsettled_flight : ∀ a att, s.attempts a = some att → att.settledQ = false →
    s.inFlight = some a
  counters : ∀ a att, s.attempts a = some att →
    att.primeGets ≤ 1 ∧ att.loginPosts ≤ 1
  prime_posts : ∀ a att, s.attempts a = some att → att.phase = .priming →
    att.loginPosts = 0
  done_settled : ∀ i a r, s.threads i = .doneJoined a r →
    ∃ att, s.attempts a = some att ∧ att.phase = .settled r

theorem sysInv_init (c₀ : Option TokRecord) : SysInv (initSys c₀) where
  dom := fun _ _ => rfl
  flight_live := fun a h => by simp [initSys] at h
  unsettled_flight := fun a att h => by simp [initSys] at h
  counters := fun a att h => by simp [initSys] at h
  prime_posts := fun a att h _ => by simp [initSys] at h
  done_settled := fun i a r h => by simp [initSys] at h

theorem sysInv_step {creds : Bool} {now : Int} {s s' : Sys}
    (hst : Step creds now s s') (hi : SysInv s) : SysInv s' := by
  cases hst with
  | resume i h =>
    refine ⟨hi.dom, hi.flight_live, hi.unsettled_flight, hi.counters, hi.prime_posts, ?_⟩
    intro j b r hj
    by_cases hji : j = i
    · simp [hji] at hj
    · simp [hji] at hj
      exact hi.done_settled j b r hj
  | hitCache i c h hc hv =>
    refine ⟨hi.dom, hi.flight_live, hi.unsettled_flight, hi.counters, hi.prime_posts, ?_⟩
    intro j b r hj
    by_cases hji : j = i
    · simp [hji] at hj
    · simp [hji] at hj
      exact hi.done_settled j b r hj
  | joinInFlight i a h hv hf =>
    refine ⟨hi.dom, hi.flight_live, hi.unsettled_flight, hi.counters, hi.prime_posts, ?_⟩
    intro j b r hj
    by_cases hji : j = i
    · simp [hji] at hj
    · simp [hji] at hj
      exact hi.done_settled j b r hj
  | finishJoin i a att r h ha hph =>
    refine ⟨hi.dom, hi.flight_live, hi.unsettled_flight, hi.counters, hi.prime_posts, ?_⟩
    intro j b r' hj
    by_cases hji : j = i
    · simp [hji] at hj
      obtain ⟨hb, hr⟩ := hj
      subst hb
      subst hr
      exact ⟨att, ha, hph⟩
    · simp [hji] at hj
      exact hi.done_settled j b r' hj
  | spawn i h hv hf hcr =>
    refine ⟨?_, ?_, ?_, ?_, ?_, ?_⟩
    · intro a ha
      have ha' : s.nextA + 1 ≤ a := ha
      have hne : a ≠ s.nextA := by omega
      simp only [hne, if_false]
      exact hi.dom a (by omega)
    · intro a ha
      have ha' : some s.nextA = some a := ha
      cases ha'
      refine ⟨⟨.priming, 1, 0⟩, ?_, rfl⟩
      simp
    · intro a att ha hset
      dsimp only at ha
      split at ha
      · rename_i hba
        subst hba
        rfl
      · have h2 := hi.unsettled_flight a att ha hset
        rw [hf] at h2
        cases h2
    · intro a att ha
      dsimp only at ha
      split at ha
      · cases ha
        exact ⟨le_refl 1, Nat.zero_le 1⟩
      · exact hi.counters a att ha
    · intro a att ha hph
      dsimp only at ha
      split at ha
      · cases ha
        rfl
      · exact hi.prime_posts a att ha hph
    · intro j b r hj
      by_cases hji : j = i
      · simp [hji] at hj
      · simp [hji] at hj
        obtain ⟨att, hatt, hph⟩ := hi.done_settled j b r hj
        have hbne : b ≠ s.nextA := by
          intro hbe
          subst hbe
          rw [hi.dom s.nextA le_rfl] at hatt
          cases hatt
        exact ⟨att, by simp only [hbne, if_false]; exact hatt, hph⟩
  | spawnNoCreds i h hv hf hcr =>
    refine ⟨?_, ?_, ?_, ?_, ?_, ?_⟩
    · intro a ha
      have ha' : s.nextA + 1 ≤ a := ha
      have hne : a ≠ s.nextA := by omega
      simp only [hne, if_false]
      exact hi.dom a (by omega)
    · intro a ha
      have ha' : some s.nextA = some a := ha
      cases ha'
      refine ⟨⟨.settling (.error credsMissingError), 0, 0⟩, ?_, rfl⟩
      simp
    · intro a att ha hset
      dsimp only at ha
      split at ha
      · rename_i hba
        subst hba
        rfl
      · have h2 := hi.unsettled_flight a att ha hset
        rw [hf] at h2
        cases h2
    · intro a att ha
      dsimp only at ha
      split at ha
      · cases ha
        exact ⟨Nat.zero_le 1, Nat.zero_le 1⟩
      · exact hi.counters a att ha
    · intro a att ha hph
      dsimp only at ha
      split at ha
      · cases ha
        cases hph
      · exact hi.prime_posts a att ha hph
    · intro j b r hj
      by_cases hji : j = i
      · simp [hji] at hj
      · simp [hji] at hj
        obtain ⟨att, hatt, hph⟩ := hi.done_settled j b r hj
        have hbne : b ≠ s.nextA := by
          intro hbe
          subst hbe
          rw [hi.dom s.nextA le_rfl] at hatt
          cases hatt
        exact ⟨att, by simp only [hbne, if_false]; exact hatt, hph⟩
  | primeOk a att h hp =>
    refine ⟨?_, ?_, ?_, ?_, ?_, ?_⟩
    · intro b hb
      have hne : b ≠ a := by
        intro he
        subst he
        rw [hi.dom b hb] at h
        cases h
      simp only [hne, if_false]
      exact hi.dom b hb
    · intro b hbf
      obtain ⟨att', hatt', hset'⟩ := hi.flight_live b hbf
      by_cases hba : b = a
      · subst hba
        exact ⟨⟨.posting, att.primeGets, att.loginPosts + 1⟩, by simp, rfl⟩
      · exact ⟨att', by simp [hba]; exact hatt', hset'⟩
    · intro b att' hatt' hset'
      dsimp only at hatt'
      split at hatt'
      · rename_i hba
        subst hba
        exact hi.unsettled_flight b att h (by simp [Attempt.settledQ, hp])
      · exact hi.unsettled_flight b att' hatt' hset'
    · intro b att' hatt'
      dsimp only at hatt'
      split at hatt'
      · rename_i hba
        subst hba
        cases hatt'
        have h0 := hi.prime_posts b att h hp
        refine ⟨(hi.counters b att h).1, ?_⟩
        dsimp only
        omega
      · exact hi.counters b att' hatt'
    · intro b att' hatt' hph
      dsimp only at hatt'
      split at hatt'
      · cases hatt'
        cases hph
      · exact hi.prime_posts b att' hatt' hph
    · intro j b r hj
      obtain ⟨att', hatt', hph'⟩ := hi.done_settled j b r hj
      by_cases hba : b = a
      · subst hba
        rw [h] at hatt'
        cases hatt'
        rw [hp] at hph'
        cases hph'
      · exact ⟨att', by simp [hba]; exact hatt', hph'⟩
  | fail a att e h hp =>
    refine ⟨?_, ?_, ?_, ?_, ?_, ?_⟩
    · intro b hb
      have hne : b ≠ a := by
        intro he
        subst he
        rw [hi.dom b hb] at h
        cases h
      simp only [hne, if_false]
      exact hi.dom b hb
    · intro b hbf
      obtain ⟨att', hatt', hset'⟩ := hi.flight_live b hbf
      by_cases hba : b = a
      · subst hba
        exact ⟨⟨.settling (.error e), att.primeGets, att.loginPosts⟩, by simp, rfl⟩
      · exact ⟨att', by simp [hba]; exact hatt', hset'⟩
    · intro b att' hatt' hset'
      dsimp only at hatt'
      split at hatt'
      · rename_i hba
        subst hba
        refine hi.unsettled_flight b att h ?_
        rcases hp with hp | hp <;> simp [Attempt.settledQ, hp]
      · exact hi.unsettled_flight b att' hatt' hset'
    · intro b att' hatt'
      dsimp only at hatt'
      split at hatt'
      · rename_i hba
        subst hba
        cases hatt'
        exact hi.counters b att h
      · exact hi.counters b att' hatt'
    · intro b att' hatt' hph
      dsimp only at hatt'
      split at hatt'
      · cases hatt'
        cases hph
      · exact hi.prime_posts b att' hatt' hph
    · intro j b r hj
      obtain ⟨att', hatt', hph'⟩ := hi.done_settled j b r hj
      by_cases hba : b = a
      · subst hba
        rw [h] at hatt'
        cases hatt'
        rcases hp with hp | hp <;> rw [hp] at hph' <;> cases hph'
      · exact ⟨att', by simp [hba]; exact hatt', hph'⟩
  | succeed a att t expSec h hp =>
    refine ⟨?_, ?_, ?_, ?_, ?_, ?_⟩
    · intro b hb
      have hne : b ≠ a := by
        intro he
        subst he
        rw [hi.dom b hb] at h
        cases h
      simp only [hne, if_false]
      exact hi.dom b hb
    · intro b hbf
      obtain ⟨att', hatt', hset'⟩ := hi.flight_live b hbf
      by_cases hba : b = a
      · subst hba
        exact ⟨⟨.settling (.ok t), att.primeGets, att.loginPosts⟩, by simp, rfl⟩
      · exact ⟨att', by simp [hba]; exact hatt', hset'⟩
    · intro b att' hatt' hset'
      dsimp only at hatt'
      split at hatt'
      · rename_i hba
        subst hba
        exact hi.unsettled_flight b att h (by simp [Attempt.settledQ, hp])
      · exact hi.unsettled_flight b att' hatt' hset'
    · intro b att' hatt'
      dsimp only at hatt'
      split at hatt'
      · rename_i hba
        subst hba
        cases hatt'
        exact hi.counters b att h
      · exact hi.counters b att' hatt'
    · intro b att' hatt' hph
      dsimp only at hatt'
      split at hatt'
      · cases hatt'
        cases hph
      · exact hi.prime_posts b att' hatt' hph
    · intro j b r hj
      obtain ⟨att', hatt', hph'⟩ := hi.done_settled j b r hj
      by_cases hba : b = a
      · subst hba
        rw [h] at hatt'
        cases hatt'
        rw [hp] at hph'
        cases hph'
      · exact ⟨att', by simp [hba]; exact hatt', hph'⟩
  | settle a att r h hp =>
    refine ⟨?_, ?_, ?_, ?_, ?_, ?_⟩
    · intro b hb
      have hne : b ≠ a := by
        intro he
        subst he
        rw [hi.dom b hb] at h
        cases h
      simp only [hne, if_false]
      exact hi.dom b hb
    · intro b hbf
      cases hbf
    · intro b att' hatt' hset'
      dsimp only at hatt'
      split at hatt'
      · cases hatt'
        simp [Attempt.settledQ] at hset'
      · rename_i hba
        have h1 := hi.unsettled_flight b att' hatt' hset'
        have h2 := hi.unsettled_flight a att h (by simp [Attempt.settledQ, hp])
        rw [h1] at h2
        injection h2 with h3
        exact absurd h3 hba
    · intro b att' hatt'
      dsimp only at hatt'
      split at hatt'
      · rename_i hba
        subst hba
        cases hatt'
        exact hi.counters b att h
      · exact hi.counters b att' hatt'
    · intro b att' hatt' hph
      dsimp only at hatt'
      split at hatt'
      · cases hatt'
        cases hph
      · exact hi.prime_posts b att' hatt' hph
    · intro j b r' hj
      obtain ⟨att', hatt', hph'⟩ := hi.done_settled j b r' hj
      by_cases hba : b = a
      · subst hba
        rw [h] at hatt'
        cases hatt'
        rw [hp] at hph'
        cases hph'
      · exact ⟨att', by simp [hba]; exact hatt', hph'⟩

theorem sysInv_reachable {creds : Bool} {now : Int} {c₀ : Option TokRecord} {s : Sys}
    (h : Reachable creds now c₀ s) : SysInv s := by
  induction h with
  | refl => exact sysInv_init c₀
  | tail hst hstep ih => exact sysInv_step hstep ih

/-- Claim C1: single-flight login. In every state reachable by any
interleaving of concurrent `getAccessToken` calls starting from a state
with no valid token record, (1) at most one authentication attempt is
unsettled (in flight) at a time, (2) every attempt issues at most one
priming GET and at most one login POST, (3) once an attempt settles —
with success or failure alike — the in-flight handle no longer references
it, (4) every caller that observed the in-flight handle resolves with
exactly that attempt's settled result, and (5) any two callers that
joined the same attempt resolve identically. -/
theorem single_flight_login (creds : Bool) (now : Int) (c₀ : Option TokRecord)
    (hc₀ : cacheValid now c₀ = false) (s : Sys)
    (hreach : Reachable creds now c₀ s) :
    (∀ a b atta attb, s.attempts a = some atta → s.attempts b = some attb →
      atta.settledQ = false → attb.settledQ = false → a = b) ∧
    (∀ a att, s.attempts a = some att → att.primeGets ≤ 1 ∧ att.loginPosts ≤ 1) ∧
    (∀ a att r, s.attempts a = some att → att.phase = .settled r → s.inFlight ≠ some a) ∧
    (∀ i a r, s.threads i = .doneJoined a r →
      ∃ att, s.attempts a = some att ∧ att.phase = .settled r) ∧
    (∀ i j a r r', s.threads i = .doneJoined a r → s.threads j = .doneJoined a r' → r = r') := by
  have hinv := sysInv_reachable hreach
  refine ⟨?_, hinv.counters, ?_, hinv.done_settled, ?_⟩
  · intro a b atta attb ha hb hsa hsb
    have h1 := hinv.unsettled_flight a atta ha hsa
    have h2 := hinv.unsettled_flight b attb hb hsb
    rw [h1] at h2
    injection h2 with h3
  · intro a att r ha hph hflight
    obtain ⟨att2, ha2, hset2⟩ := hinv.flight_live a hflight
    rw [ha] at ha2
    injection ha2 with he
    subst he
    simp [Attempt.settledQ, hph] at hset2
  · intro i j a r r' hi1 hj1
    obtain ⟨att1, ha1, hp1⟩ := hinv.done_settled i a r hi1
    obtain ⟨att2, ha2, hp2⟩ := hinv.done_settled j a r' hj1
    rw [ha1] at ha2
    injection ha2 with he
    subst he
    rw [hp1] at hp2
    injection hp2 with hr

/-- State 0 of the concrete single-flight run: all callers at `start`,
empty cache. -/
def sfW0 : Sys := initSys none

/-- State 1: caller 0 has resumed from `readCache`. -/
def sfW1 : Sys := { sfW0 with threads := fun j => if j = 0 then .ready else sfW0.threads j }

/-- State 2: caller 0 spawned attempt 0 (priming GET issued) and joined it. -/
def sfW2 : Sys :=
  { sfW1 with
    attempts := fun b => if b = sfW1.nextA then some ⟨.priming, 1, 0⟩ else sfW1.attempts b,
    inFlight := some sfW1.nextA,
    nextA := sfW1.nextA + 1,
    threads := fun j => if j = 0 then .joined sfW1.nextA else sfW1.threads j }

/-- State 3: attempt 0 got its priming response and issued the login POST. -/
def sfW3 : Sys :=
  { sfW2 with attempts := fun b => if b = 0 then some ⟨.posting, 1, 1⟩ else sfW2.attempts b }

/-- State 4: attempt 0 obtained token `tok` and wrote the cache. -/
def sfW4 : Sys :=
  { sfW3 with
    cache := some ⟨"tok", 0 + 3600 * 1000⟩,
    attempts := fun b => if b = 0 then some ⟨.settling (.ok "tok"), 1, 1⟩ else sfW3.attempts b }

/-- State 5: attempt 0 settled; the in-flight handle is cleared. -/
def sfW5 : Sys :=
  { sfW4 with
    inFlight := none,
    attempts := fun b => if b = 0 then some ⟨.settled (.ok "tok"), 1, 1⟩ else sfW4.attempts b }

/-- State 6: caller 0 resolved with the settled result. -/
def sfW6 : Sys :=
  { sfW5 with threads := fun j => if j = 0 then .doneJoined 0 (.ok "tok") else sfW5.threads j }

/-- Witness for claim C1: a concrete reachable state in which attempt 0
has settled, obtained via an explicit six-step run; the theorem yields
that the in-flight handle no longer references the settled attempt. -/
theorem single_flight_login_witness :
    cacheValid 0 none = false ∧ sfW6.inFlight ≠ some 0 := by
  refine ⟨rfl, ?_⟩
  have h01 : Step true 0 sfW0 sfW1 := Step.resume sfW0 0 rfl
  have h12 : Step true 0 sfW1 sfW2 := Step.spawn sfW1 0 rfl rfl rfl rfl
  have h23 : Step true 0 sfW2 sfW3 := Step.primeOk sfW2 0 ⟨.priming, 1, 0⟩ rfl rfl
  have h34 : Step true 0 sfW3 sfW4 := Step.succeed sfW3 0 ⟨.posting, 1, 1⟩ "tok" 3600 rfl rfl
  have h45 : Step true 0 sfW4 sfW5 :=
    Step.settle sfW4 0 ⟨.settling (.ok "tok"), 1, 1⟩ (.ok "tok") rfl rfl
  have h56 : Step true 0 sfW5 sfW6 :=
    Step.finishJoin sfW5 0 0 ⟨.settled (.ok "tok"), 1, 1⟩ (.ok "tok") rfl rfl rfl
  have hreach : Reachable true 0 none sfW6 :=
    .tail (.tail (.tail (.tail (.tail (.tail .refl h01) h12) h23) h34) h45) h56
  exact (single_flight_login true 0 none rfl sfW6 hreach).2.2.1 0
    ⟨.settled (.ok "tok"), 1, 1⟩ (.ok "tok") rfl rfl

lemma getAccessToken_no_valid (file : CacheFile) (env : LoginEnv)
    (hnv : hasValidToken file env.now = false) :
    getAccessToken file false env =
      ⟨.loginStarted (performLogin env).outcome, (performLogin env).cacheAfter,
        (performLogin env).events⟩ ∧
    getAccessToken file true env = ⟨.awaitedInFlight, file, ⟨0, 0⟩⟩ := by
  unfold hasValidToken at hnv
  unfold getAccessToken
  cases hr : readCache file with
  | none => exact ⟨rfl, rfl⟩
  | some c =>
    rw [hr] at hnv
    have hv : tokenStillValid env.now c = false := hnv
    refine ⟨?_, ?_⟩ <;> simp [hv]

lemma getAccessToken_valid (file : CacheFile) (env : LoginEnv) (c : AuthCache)
    (hc : readCache file = some c) (hv : tokenStillValid env.now c = true) (ifl : Bool) :
    getAccessToken file ifl env = ⟨.cachedToken c.accessToken, file, ⟨0, 0⟩⟩ := by
  unfold getAccessToken
  rw [hc]
  simp [hv]

/-- Claim C2 (amended): a valid cached record is returned as is with no
network call, for any in-flight state; when the record is missing or past
the `expiry - 5min` boundary the cached token is never returned — a new
login flow is initiated if no authentication attempt is in flight, and
otherwise the call awaits the in-flight attempt instead of starting a
new one. -/
theorem token_reuse_and_expiry (file : CacheFile) (env : LoginEnv) :
    (∀ c, readCache file = some c → tokenStillValid env.now c = true →
      ∀ ifl, getAccessToken file ifl env = ⟨.cachedToken c.accessToken, file, ⟨0, 0⟩⟩) ∧
    (hasValidToken file env.now = false →
      (getAccessToken file false env).outcome = .loginStarted (performLogin env).outcome ∧
      (getAccessToken file true env).outcome = .awaitedInFlight) := by
  refine ⟨?_, ?_⟩
  · intro c hc hv ifl
    exact getAccessToken_valid file env c hc hv ifl
  · intro hnv
    obtain ⟨h1, h2⟩ := getAccessToken_no_valid file env hnv
    exact ⟨by rw [h1], by rw [h2]⟩

/-- A login environment with credentials set, a priming response whose
jar carries an XSRF-TOKEN cookie, and a successful login POST. -/
def c2Env : LoginEnv :=
  ⟨true, true, .ok (), [⟨"XSRF-TOKEN", "x"⟩], .ok (.fields (some (.jstr "tok2")) none), 0⟩

/-- Claim C2 counterexample: with no cache record but an authentication
attempt already in flight, `getAccessToken` does not initiate a new login
flow and performs no network call: it awaits the existing in-flight
attempt. The claim as stated demands that a new login flow be initiated
whenever no valid record exists. -/
theorem token_reuse_counterexample :
    (getAccessToken .missing true c2Env).outcome = .awaitedInFlight ∧
    (getAccessToken .missing true c2Env).events = ⟨0, 0⟩ ∧
    (getAccessToken .missing true c2Env).outcome ≠
      .loginStarted (performLogin c2Env).outcome :=
  ⟨rfl, rfl, by decide⟩

/-- A cache file holding a valid record far from expiry. -/
def c2File : CacheFile := .parsedObj (some (.jstr "tok")) (some (.jnum 10000000)) (some .jobj)

/-- Witness for claim C2: the amended theorem applied to a valid cached
record, to a missing record with no in-flight attempt, and to a missing
record with an in-flight attempt. -/
theorem token_reuse_and_expiry_witness :
    getAccessToken c2File false c2Env = ⟨.cachedToken "tok", c2File, ⟨0, 0⟩⟩ ∧
    (getAccessToken .missing false c2Env).outcome = .loginStarted (performLogin c2Env).outcome ∧
    (getAccessToken .missing true c2Env).outcome = .awaitedInFlight := by
  refine ⟨(token_reuse_and_expiry c2File c2Env).1 ⟨"tok", 10000000, .jobj⟩
      (by decide) (by decide) false,
    ((token_reuse_and_expiry .missing c2Env).2 (by decide)).1,
    ((token_reuse_and_expiry .missing c2Env).2 (by decide)).2⟩

lemma performLogin_failure_clears (env : LoginEnv) :
    (∃ t, (performLogin env).outcome = .ok t) ∨ (performLogin env).cacheAfter = .missing := by
  unfold performLogin
  split
  · exact .inr rfl
  · split
    · exact .inr rfl
    · split
      · exact .inr rfl
      · split
        · exact .inr rfl
        · split
          · exact .inr rfl
          · exact .inl ⟨_, rfl⟩

lemma getAccessToken_missing_login (env : LoginEnv) :
    (getAccessToken .missing false env).outcome = .loginStarted (performLogin env).outcome := rfl

/-- Claim C3: clear-on-failure atomicity. Whenever `performLogin` fails —
at the credentials check, the priming GET, the XSRF cookie extraction,
the login POST or the token parsing — the durable token store (record and
persisted cookie jar live in the one cache file) is cleared before the
error propagates, and the very next `getAccessToken` call (the in-flight
handle having been cleared by the `finally` block) starts a fresh login
rather than reusing partial state. -/
theorem clear_on_failure (env : LoginEnv) (e : APIError)
    (h : (performLogin env).outcome = .error e) :
    (performLogin env).cacheAfter = .missing ∧
    ∀ env2, (getAccessToken (performLogin env).cacheAfter false env2).outcome
      = .loginStarted (performLogin env2).outcome := by
  rcases performLogin_failure_clears env with ⟨t, ht⟩ | hmiss
  · rw [h] at ht
    cases ht
  · refine ⟨hmiss, ?_⟩
    intro env2
    rw [hmiss]
    exact getAccessToken_missing_login env2

/-- A login environment whose priming GET succeeds but leaves no
XSRF-TOKEN cookie in the jar, so the login fails. -/
def c3Env : LoginEnv := ⟨true, true, .ok (), [], .ok .falsy, 0⟩

/-- Witness for claim C3: a concrete failing login (missing anti-forgery
cookie) leaves the cache absent, and the next call starts a fresh
login. -/
theorem clear_on_failure_witness :
    (performLogin c3Env).outcome = .error xsrfError ∧
    (performLogin c3Env).cacheAfter = .missing ∧
    (getAccessToken (performLogin c3Env).cacheAfter false c3Env).outcome
      = .loginStarted (performLogin c3Env).outcome := by
  have h := clear_on_failure c3Env xsrfError (by decide)
  exact ⟨by decide, h.1, h.2 c3Env⟩

/-- A proxy-route oracle whose upstream GET fails with 401 after a
successful token acquisition. -/
def c4Env : ProxyEnv := ⟨.ok "tok", .axiosErr (some 401) "Request failed with status code 401" "d"⟩

/-- Claim C4 counterexample: on an upstream 401, the notice-detail route
performs no re-authentication (one `getAccessToken` call in total) and no
retry (one upstream call in total); it surfaces the 401 directly. The
claim as stated demands a token-store clear, one forced
re-authentication and exactly one retry on each of the three routes. -/
theorem uniform_retry_counterexample :
    (noticeGET c4Env).authCalls = 1 ∧
    (noticeGET c4Env).upstreamCalls = 1 ∧
    (noticeGET c4Env).status = 401 ∧
    ¬((noticeGET c4Env).authCalls = 2 ∧ (noticeGET c4Env).upstreamCalls = 2) := by
  decide

/-- Claim C4 (amended): the three routes do not share one retry policy.
The search route alone reacts to an upstream 401/403 by clearing the
token store, forcing one re-authentication and retrying at most once
(exactly once when the re-authentication succeeds); the notice-detail and
image-proxy routes surface an upstream 401/403 directly — one token
acquisition, one upstream call, no clear, no retry. -/
theorem retry_policy_per_route :
    (∀ t st msg data a2 s2, st = some 401 ∨ st = some 403 →
      (searchGET ⟨.ok t, .axiosErr st msg data, a2, s2⟩).authCalls = 2 ∧
      (searchGET ⟨.ok t, .axiosErr st msg data, a2, s2⟩).clearedTokenStore = true ∧
      (searchGET ⟨.ok t, .axiosErr st msg data, a2, s2⟩).searchCalls ≤ 2 ∧
      (∀ t2, a2 = .ok t2 → (searchGET ⟨.ok t, .axiosErr st msg data, a2, s2⟩).searchCalls = 2)) ∧
    (∀ t st msg data, st = some 401 ∨ st = some 403 →
      (noticeGET ⟨.ok t, .axiosErr st msg data⟩).authCalls = 1 ∧
      (noticeGET ⟨.ok t, .axiosErr st msg data⟩).upstreamCalls = 1 ∧
      (noticeGET ⟨.ok t, .axiosErr st msg data⟩).status = jsOrInt st 500) ∧
    (∀ t st msg data, st = some 401 ∨ st = some 403 →
      (imageGET ⟨.ok t, .axiosErr st msg data⟩).authCalls = 1 ∧
      (imageGET ⟨.ok t, .axiosErr st msg data⟩).upstreamCalls = 1 ∧
      (imageGET ⟨.ok t, .axiosErr st msg data⟩).status = jsOrInt st 500) := by
  refine ⟨?_, ?_, ?_⟩
  · intro t st msg data a2 s2 hst
    rcases a2 with e2 | t2 <;> rcases s2 with d2 | ⟨st2, msg2, data2⟩ <;>
      refine ⟨?_, ?_, ?_, ?_⟩ <;>
        simp [searchGET, if_pos hst]
  · intro t st msg data hst
    exact ⟨rfl, rfl, rfl⟩
  · intro t st msg data hst
    exact ⟨rfl, rfl, rfl⟩

/-- Witness for claim C4: the amended theorem applied to the concrete
oracle of the counterexample scenario on all three routes. -/
theorem retry_policy_per_route_witness :
    (searchGET ⟨.ok "tok", .axiosErr (some 401) "m" "d", .ok "tok2", .ok "yes"⟩).searchCalls = 2 ∧
    (noticeGET c4Env).status = jsOrInt (some 401) 500 ∧
    (imageGET ⟨.ok "tok", .axiosErr (some 401) "m" "d"⟩).upstreamCalls = 1 := by
  refine ⟨(retry_policy_per_route.1 "tok" (some 401) "m" "d" (.ok "tok2") (.ok "yes")
      (.inl rfl)).2.2.2 "tok2" rfl,
    (retry_policy_per_route.2.1 "tok" (some 401) "Request failed with status code 401" "d"
      (.inl rfl)).2.2,
    (retry_policy_per_route.2.2 "tok" (some 401) "m" "d" (.inl rfl)).2.1⟩

/-- Claim C5: single retry on auth failure in the search route. When the
first `performSearch` rejects with status 401 or 403, the handler clears
the token store and re-authenticates exactly once; when the
re-authentication succeeds the search is retried exactly once, and never
a third time; if the retry also fails, the response is the wrapped error
whose details carry the original failure message and the retry failure
data; a first failure with any other status is surfaced directly, with
no clear, no re-authentication and no retry. -/
theorem single_retry_on_auth_failure (env : SearchEnv) (t : String)
    (h1 : env.auth1 = .ok t) :
    (∀ st msg data, env.search1 = .axiosErr st msg data → st = some 401 ∨ st = some 403 →
      (searchGET env).clearedTokenStore = true ∧
      (searchGET env).authCalls = 2 ∧
      (searchGET env).searchCalls ≤ 2 ∧
      (∀ t2, env.auth2 = .ok t2 → (searchGET env).searchCalls = 2) ∧
      (∀ t2 st2 msg2 data2, env.auth2 = .ok t2 → env.search2 = .axiosErr st2 msg2 data2 →
        (searchGET env).response.status = jsOrInt st2 500 ∧
        (searchGET env).response.body =
          .errorBody ("Failed to retry search: " ++ msg2) (searchCodeOf (jsOrInt st2 500))
            (.retryWrap msg
              (match st2 with | some _ => .payload data2 | none => .nofield)))) ∧
    (∀ st msg data, env.search1 = .axiosErr st msg data → ¬(st = some 401 ∨ st = some 403) →
      (searchGET env).searchCalls = 1 ∧
      (searchGET env).authCalls = 1 ∧
      (searchGET env).clearedTokenStore = false ∧
      (searchGET env).response.status = jsOrInt st 500 ∧
      (searchGET env).response.body =
        .errorBody ("Search failed: " ++ msg) (searchCodeOf (jsOrInt st 500)) (.payload data)) := by
  obtain ⟨a1, s1, a2, s2⟩ := env
  simp only at h1
  subst h1
  refine ⟨?_, ?_⟩
  · intro st msg data hs1 hst
    simp only at hs1
    subst hs1
    rcases a2 with e2 | t2 <;> rcases s2 with d2 | ⟨st2, msg2, data2⟩ <;>
      refine ⟨?_, ?_, ?_, ?_, ?_⟩ <;>
        simp [searchGET, searchErrorResponse, if_pos hst]
    all_goals (intros; subst_vars; exact ⟨rfl, rfl, rfl, rfl⟩)
  · intro st msg data hs1 hst
    simp only at hs1
    subst hs1
    refine ⟨?_, ?_, ?_, ?_, ?_⟩ <;>
      simp [searchGET, searchErrorResponse, if_neg hst]

/-- A search-route oracle: first search rejected with 401, successful
re-authentication, retry rejected with 401 again. -/
def c5Env : SearchEnv :=
  ⟨.ok "t", .axiosErr (some 401) "m1" "d1", .ok "t2", .axiosErr (some 401) "m2" "d2"⟩

/-- A search-route oracle whose first search fails with a non-auth
status. -/
def c5EnvOther : SearchEnv := ⟨.ok "t", .axiosErr (some 500) "m1" "d1", .ok "t2", .ok "y"⟩

/-- Witness for claim C5: a 401-then-401 run produces the wrapped error
referencing both failures with exactly two search calls, and a 500 run is
surfaced directly with one search call. -/
theorem single_retry_on_auth_failure_witness :
    (searchGET c5Env).response.body =
      .errorBody ("Failed to retry search: " ++ "m2") (searchCodeOf (jsOrInt (some 401) 500))
        (.retryWrap "m1" (.payload "d2")) ∧
    (searchGET c5Env).searchCalls = 2 ∧
    (searchGET c5Env).authCalls = 2 ∧
    (searchGET c5EnvOther).searchCalls = 1 ∧
    (searchGET c5EnvOther).authCalls = 1 := by
  have h := (single_retry_on_auth_failure c5Env "t" rfl).1 (some 401) "m1" "d1" rfl (.inl rfl)
  have h2 := h.2.2.2.2 "t2" (some 401) "m2" "d2" rfl rfl
  have h3 := (single_retry_on_auth_failure c5EnvOther "t" rfl).2 (some 500) "m1" "d1" rfl
    (by decide)
  exact ⟨h2.2, h.2.2.2.1 "t2" rfl, h.2.1, h3.1, h3.2.1⟩

/-- Claim C6 counterexample: in the shared client, a call made with
unconfigured credentials but a valid cached token record succeeds and
returns the cached token with no network call — it does not fail with the
configuration error, because the credentials check of `performLogin` runs
only after the cached-record check of `getAccessToken` has missed. -/
theorem config_error_precedence_counterexample :
    (getAccessToken (.parsedObj (some (.jstr "cachedTok")) (some (.jnum 1000000000)) (some .jobj))
        false ⟨false, false, .ok (), [], .ok .falsy, 0⟩).outcome = .cachedToken "cachedTok" ∧
    (getAccessToken (.parsedObj (some (.jstr "cachedTok")) (some (.jnum 1000000000)) (some .jobj))
        false ⟨false, false, .ok (), [], .ok .falsy, 0⟩).events = ⟨0, 0⟩ := by
  decide

/-- Claim C6 (amended): in the shared client the credentials check is
step one of the login flow, not of `getAccessToken`: with unconfigured
credentials, a call finding no valid cached record (and no in-flight
attempt) fails with the configuration `APIError` (status 500) before any
network call and clears the cache file; but a call finding a valid cached
record returns the cached token without failing. -/
theorem config_error_in_login_flow (file : CacheFile) (env : LoginEnv)
    (hcreds : (env.usernameSet && env.passwordSet) = false) :
    (hasValidToken file env.now = false →
      (getAccessToken file false env).outcome = .loginStarted (.error credsMissingError) ∧
      (getAccessToken file false env).events = ⟨0, 0⟩ ∧
      (getAccessToken file false env).cacheAfter = .missing) ∧
    (∀ c, readCache file = some c → tokenStillValid env.now c = true →
      (getAccessToken file false env).outcome = .cachedToken c.accessToken) ∧
    credsMissingError.statusCode = 500 := by
  have hlogin : performLogin env = ⟨.error credsMissingError, .missing, ⟨0, 0⟩⟩ := by
    unfold performLogin
    rw [hcreds]
    rfl
  refine ⟨?_, ?_, rfl⟩
  · intro hnv
    obtain ⟨h1, _⟩ := getAccessToken_no_valid file env hnv
    rw [h1, hlogin]
    exact ⟨rfl, rfl, rfl⟩
  · intro c hc hv
    rw [getAccessToken_valid file env c hc hv false]

/-- Witness for claim C6: the amended theorem applied to a missing cache
file and to a valid cached record, both with unconfigured credentials. -/
theorem config_error_in_login_flow_witness :
    (getAccessToken .missing false ⟨false, false, .ok (), [], .ok .falsy, 0⟩).outcome
      = .loginStarted (.error credsMissingError) ∧
    (getAccessToken c2File false ⟨false, false, .ok (), [], .ok .falsy, 0⟩).outcome
      = .cachedToken "tok" := by
  refine ⟨((config_error_in_login_flow .missing ⟨false, false, .ok (), [], .ok .falsy, 0⟩
      rfl).1 (by decide)).1,
    (config_error_in_login_flow c2File ⟨false, false, .ok (), [], .ok .falsy, 0⟩ rfl).2.1
      ⟨"tok", 10000000, .jobj⟩ (by decide) (by decide)⟩

/-- Claim C7 counterexample: when the priming GET leaves no XSRF-TOKEN
cookie in the jar, the login fails with the `APIError` whose details
stage is the literal `login-xsrf-cookie-extraction` — not
`xsrf-extraction` as the claim states. -/
theorem xsrf_stage_counterexample :
    (performLogin c3Env).outcome = .error xsrfError ∧
    xsrfError.details.stageOf = some "login-xsrf-cookie-extraction" ∧
    xsrfError.details.stageOf ≠ some "xsrf-extraction" := by
  decide

/-- Claim C7 (amended): a login flow whose session-priming GET succeeds
but yields no usable XSRF-TOKEN cookie fails with the `APIError` of
status 500 whose details stage equals `login-xsrf-cookie-extraction`,
issues no login POST, and leaves the token store absent. -/
theorem xsrf_missing_fails (file : CacheFile) (env : LoginEnv)
    (hcreds : (env.usernameSet && env.passwordSet) = true)
    (hprime : env.primeOutcome = .ok ())
    (hxsrf : xsrfFromJar env.jarCookies = none)
    (hnv : hasValidToken file env.now = false) :
    (getAccessToken file false env).outcome = .loginStarted (.error xsrfError) ∧
    xsrfError.details.stageOf = some "login-xsrf-cookie-extraction" ∧
    xsrfError.statusCode = 500 ∧
    (getAccessToken file false env).cacheAfter = .missing ∧
    (getAccessToken file false env).events.loginPosts = 0 := by
  have hlogin : performLogin env = ⟨.error xsrfError, .missing, ⟨1, 0⟩⟩ := by
    unfold performLogin
    rw [hcreds, hprime, hxsrf]
    rfl
  obtain ⟨h1, _⟩ := getAccessToken_no_valid file env hnv
  rw [h1, hlogin]
  exact ⟨rfl, rfl, rfl, rfl, rfl⟩

/-- Witness for claim C7: the amended theorem applied to a priming
response that sets only unrelated cookies. -/
theorem xsrf_missing_fails_witness :
    (getAccessToken .missing false
        ⟨true, true, .ok (), [⟨"SESSION", "s"⟩], .ok .falsy, 0⟩).outcome
      = .loginStarted (.error xsrfError) := by
  exact (xsrf_missing_fails .missing ⟨true, true, .ok (), [⟨"SESSION", "s"⟩], .ok .falsy, 0⟩
    rfl rfl (by decide) (by decide)).1

/-- Claim C8: missing access token. A login flow whose POST response body
lacks an `access_token` field that is a non-empty string (falsy body,
missing field, non-string value, or empty string — exactly the cases
where `validAccessTokenField` yields `none`) fails with the `APIError` of
status 500 whose details stage equals `token-extraction`, and the token
store is left absent. -/
theorem missing_access_token_fails (file : CacheFile) (env : LoginEnv) (x : String)
    (body : LoginBody)
    (hcreds : (env.usernameSet && env.passwordSet) = true)
    (hprime : env.primeOutcome = .ok ())
    (hxsrf : xsrfFromJar env.jarCookies = some x)
    (hpost : env.postOutcome = .ok body)
    (hbad : validAccessTokenField body = none)
    (hnv : hasValidToken file env.now = false) :
    (getAccessToken file false env).outcome = .loginStarted (.error tokenExtractionError) ∧
    tokenExtractionError.details.stageOf = some "token-extraction" ∧
    tokenExtractionError.statusCode = 500 ∧
    (getAccessToken file false env).cacheAfter = .missing := by
  have hlogin : performLogin env = ⟨.error tokenExtractionError, .missing, ⟨1, 1⟩⟩ := by
    unfold performLogin
    rw [hcreds, hprime, hxsrf, hpost]
    simp [hbad]
  obtain ⟨h1, _⟩ := getAccessToken_no_valid file env hnv
  rw [h1, hlogin]
  exact ⟨rfl, rfl, rfl, rfl⟩

/-- A login environment whose POST response carries a numeric (hence
non-string) access_token field. -/
def c8Env : LoginEnv :=
  ⟨true, true, .ok (), [⟨"XSRF-TOKEN", "x"⟩], .ok (.fields (some (.jnum 5)) none), 0⟩

/-- Witness for claim C8: the theorem applied to a response whose
access_token is the number 5. -/
theorem missing_access_token_fails_witness :
    (getAccessToken .missing false c8Env).outcome
      = .loginStarted (.error tokenExtractionError) := by
  exact (missing_access_token_fails .missing c8Env "x" (.fields (some (.jnum 5)) none)
    rfl rfl (by decide) rfl (by decide) (by decide)).1

/-- Claim C9: expiry computation. Every successful login stores the
record with expiry `now + expiresIn * 1000` milliseconds, where
`expiresIn` is the `expires_in` number from the response body when
present and numeric, and 3600 whenever the field is absent or
non-numeric. -/
theorem expiry_computation (env : LoginEnv) (x tok : String) (body : LoginBody)
    (hcreds : (env.usernameSet && env.passwordSet) = true)
    (hprime : env.primeOutcome = .ok ())
    (hxsrf : xsrfFromJar env.jarCookies = some x)
    (hpost : env.postOutcome = .ok body)
    (htok : validAccessTokenField body = some tok) :
    (performLogin env).outcome = .ok tok ∧
    (performLogin env).cacheAfter =
      .parsedObj (some (.jstr tok)) (some (.jnum (env.now + expiresInOf body * 1000)))
        (some .jobj) ∧
    (∀ n, body.expiresIn? = some (.jnum n) → expiresInOf body = n) ∧
    (body.expiresIn? = none → expiresInOf body = 3600) ∧
    (∀ v, body.expiresIn? = some v → (∀ n, v ≠ .jnum n) → expiresInOf body = 3600) := by
  have hlogin : performLogin env =
      ⟨.ok tok,
        .parsedObj (some (.jstr tok)) (some (.jnum (env.now + expiresInOf body * 1000)))
          (some .jobj),
        ⟨1, 1⟩⟩ := by
    unfold performLogin
    rw [hcreds, hprime, hxsrf, hpost]
    simp [htok]
  refine ⟨by rw [hlogin], by rw [hlogin], ?_, ?_, ?_⟩
  · intro n h
    unfold expiresInOf
    rw [h]
  · intro h
    unfold expiresInOf
    rw [h]
  · intro v hv hnn
    unfold expiresInOf
    rw [hv]
    cases v with
    | jnum n => exact absurd rfl (hnn n)
    | jstr s => rfl
    | jbool b => rfl
    | jnull => rfl
    | jobj => rfl

/-- A login environment whose POST response carries a numeric
expires_in of 120 seconds. -/
def c9Env : LoginEnv :=
  ⟨true, true, .ok (), [⟨"XSRF-TOKEN", "x"⟩],
    .ok (.fields (some (.jstr "t9")) (some (.jnum 120))), 0⟩

/-- Witness for claim C9: the theorem applied with an absent expires_in
(default 3600) and with a numeric expires_in of 120. -/
theorem expiry_computation_witness :
    (performLogin c2Env).cacheAfter =
      .parsedObj (some (.jstr "tok2"))
        (some (.jnum (0 + expiresInOf (.fields (some (.jstr "tok2")) none) * 1000)))
        (some .jobj) ∧
    expiresInOf (.fields (some (.jstr "tok2")) none) = 3600 ∧
    (performLogin c9Env).cacheAfter =
      .parsedObj (some (.jstr "t9"))
        (some (.jnum (0 + expiresInOf (.fields (some (.jstr "t9")) (some (.jnum 120))) * 1000)))
        (some .jobj) ∧
    expiresInOf (.fields (some (.jstr "t9")) (some (.jnum 120))) = 120 := by
  have h2 := expiry_computation c2Env "x" "tok2" (.fields (some (.jstr "tok2")) none)
    rfl rfl (by decide) rfl (by decide)
  have h9 := expiry_computation c9Env "x" "t9" (.fields (some (.jstr "t9")) (some (.jnum 120)))
    rfl rfl (by decide) rfl (by decide)
  exact ⟨h2.2.1, h2.2.2.2.1 rfl, h9.2.1, h9.2.2.1 120 rfl⟩

/-- The corrupt-cache-file states enumerated by claim C10: missing file,
unreadable file, text `JSON.parse` rejects, a falsy parse result, or a
parsed object whose accessToken is not a string, whose tokenExpiry is not
a number, or whose cookieJar field is absent. -/
def corruptCacheFile : CacheFile → Bool
  | .missing => true
  | .unreadable => true
  | .unparsable => true
  | .parsedFalsy => true
  | .parsedObj a t c =>
      (match a with | some (.jstr _) => false | _ => true) ||
      (match t with | some (.jnum _) => false | _ => true) ||
      (match c with | none => true | some _ => false)

/-- Claim C10: cache-read totality. On every corrupt state of the durable
auth-cache file, `readCache` yields `null` instead of throwing (its body
is wrapped in a catch-all), so `getAccessToken` never fails because of a
corrupt cache file: it falls through to the login flow — starting one
when no attempt is in flight, awaiting the in-flight one otherwise. -/
theorem cache_read_totality (f : CacheFile) (h : corruptCacheFile f = true) :
    readCache f = none ∧
    (∀ env, (getAccessToken f false env).outcome = .loginStarted (performLogin env).outcome) ∧
    (∀ env, (getAccessToken f true env).outcome = .awaitedInFlight) := by
  have hrc : readCache f = none := by
    cases f with
    | missing => rfl
    | unreadable => rfl
    | unparsable => rfl
    | parsedFalsy => rfl
    | parsedObj a t c =>
      rcases a with _ | va
      · rfl
      · cases va with
        | jstr s =>
          rcases t with _ | vt
          · rfl
          · cases vt with
            | jnum n =>
              rcases c with _ | vc
              · rfl
              · simp [corruptCacheFile] at h
            | jstr s2 => rfl
            | jbool b => rfl
            | jnull => rfl
            | jobj => rfl
        | jnum n => rfl
        | jbool b => rfl
        | jnull => rfl
        | jobj => rfl
  have hnv : ∀ now, hasValidToken f now = false := by
    intro now
    unfold hasValidToken
    rw [hrc]
  refine ⟨hrc, ?_, ?_⟩
  · intro env
    obtain ⟨h1, _⟩ := getAccessToken_no_valid f env (hnv env.now)
    rw [h1]
  · intro env
    obtain ⟨_, h2⟩ := getAccessToken_no_valid f env (hnv env.now)
    rw [h2]

/-- Witness for claim C10: the theorem applied to an unparsable cache
file. -/
theorem cache_read_totality_witness :
    readCache .unparsable = none ∧
    (getAccessToken .unparsable false c2Env).outcome
      = .loginStarted (performLogin c2Env).outcome ∧
    (getAccessToken .unparsable true c2Env).outcome = .awaitedInFlight := by
  have h := cache_read_totality .unparsable (by decide)
  exact ⟨h.1, h.2.1 c2Env, h.2.2 c2Env⟩
